import Mathlib

/-!
Shallow embedding of the video-playback session controller of the mvp-app
repository (src/screens/VideoPlayerScreen.tsx, src/utils/helper.ts,
src/types/firebaseTypes.ts), together with theorems settling the frozen
claims about it.

Numbers that are TypeScript `number`s (positions, durations, timestamps,
percentages) are modelled as rationals; timestamps are in milliseconds as
in the source (`Date.now()`), playback positions and video durations in
seconds as in the source.
-/

namespace MvpApp

/-- JS `parseFloat(x.toFixed(1))`: round to the nearest multiple of 1/10.
The ECMAScript spec for `toFixed` picks the integer n minimising
|n / 10 - x|, and on a tie the larger n, i.e. round half towards +infinity. -/
def toFixed1 (q : ℚ) : ℚ := (⌊q * 10 + 1 / 2⌋ : ℚ) / 10

/-- VideoProgress from src/types/firebaseTypes.ts (lines 26-31).
The `lastUpdated : Timestamp` field is wall-clock metadata never read by the
controller and is omitted from the model. -/
structure VideoProgress where
  lastPosition : ℚ
  completionPercentage : ℚ
  completed : Bool
deriving Repr, DecidableEq

/-- The part of the Video record (src/types/firebaseTypes.ts lines 33-41) the
controller logic reads: `duration` (seconds) and the persisted `progress`.
Identity/display fields (id, youtubeId, title, thumbnailUrl, userId,
dateAdded) are never used by the save/timer/handler logic and are omitted.
`progress` is an Option because the screen reads it with optional chaining
(`videoData.progress?.lastPosition`). -/
structure VideoData where
  duration : ℚ
  progress : Option VideoProgress
deriving Repr, DecidableEq

/-- The component state of VideoPlayerScreen that the modelled operations read
or write: `videoData`, `isFocused` (useIsFocused), `isPlayerReady`,
`currentPlaybackTime`, `sessionEndTime` (ms timestamp or null) and
`userPrefs.defaultSessionDuration` (minutes, null while loading). -/
structure ControllerState where
  videoData : Option VideoData
  isFocused : Bool
  isPlayerReady : Bool
  currentPlaybackTime : ℚ
  sessionEndTime : Option ℚ
  userPrefs : Option ℚ
deriving Repr, DecidableEq

/-- The progress record built by the debounced save
(VideoPlayerScreen.tsx lines 65-71): the raw percentage is
`min(100, (position / duration) * 100)`; the stored `completionPercentage` is
that value through `parseFloat(...toFixed(1))`; `lastPosition` is
`Math.floor(position)`; `completed` is `isCompleted || raw >= 98`, i.e. it
compares the unrounded percentage (an omitted `isCompleted` argument is
falsy and behaves as `false`). -/
def computeNewProgress (duration position : ℚ) (isCompleted : Bool) : VideoProgress :=
  let completionPercentage := min 100 (position / duration * 100)
  { lastPosition := (⌊position⌋ : ℚ)
    completionPercentage := toFixed1 completionPercentage
    completed := isCompleted || decide (completionPercentage ≥ 98) }

/-- Outcome of one run of the inner body of `debouncedSaveProgress`:
the updated controller `videoData` (the success path copies the new
progress into local state, line 78), the store write that was issued (`none`
when the guard returned early), and whether the catch block logged a
failed write. -/
structure SaveEffect where
  videoDataAfter : Option VideoData
  write : Option VideoProgress
  errorLogged : Bool
deriving Repr, DecidableEq

/-- Body of the function wrapped in `debounce` at VideoPlayerScreen.tsx
lines 62-81, run when a debounce window closes. The guard (line 63)
`if (!videoData || videoData.duration === 0 || !isFocused) return;` makes the
call a silent no-op. Otherwise the firestore update is issued with the new
record; `storeOk` models whether that external write succeeds (success also
updates the local `videoData.progress`, failure only logs). -/
def saveProgressFlush (videoData : Option VideoData) (isFocused storeOk : Bool)
    (position : ℚ) (isCompleted : Bool) : SaveEffect :=
  match videoData with
  | none => { videoDataAfter := none, write := none, errorLogged := false }
  | some vd =>
      if vd.duration = 0 ∨ isFocused = false then
        { videoDataAfter := some vd, write := none, errorLogged := false }
      else
        let newProgress := computeNewProgress vd.duration position isCompleted
        if storeOk then
          { videoDataAfter := some { vd with progress := some newProgress }
            write := some newProgress
            errorLogged := false }
        else
          { videoDataAfter := some vd, write := some newProgress, errorLogged := true }

/-- One step of `debounce` from src/utils/helper.ts (lines 182-192) over a
trace of timestamped calls, processed in time order. The accumulator holds
the invocations already fired and the pending timeout (fire time, argument).
A call first lets a pending timeout whose fire time has been reached fire
(the event loop runs it before the later call), otherwise cancels it
(`clearTimeout`), and always schedules itself at its own time plus the
delay. -/
def debounceStep {α : Type} (delay : ℚ) (acc : List α × Option (ℚ × α))
    (c : ℚ × α) : List α × Option (ℚ × α) :=
  match acc.2 with
  | some pending =>
      if pending.1 ≤ c.1 then (acc.1 ++ [pending.2], some (c.1 + delay, c.2))
      else (acc.1, some (c.1 + delay, c.2))
  | none => (acc.1, some (c.1 + delay, c.2))

/-- The sequence of invocations the debounced function actually makes, given
timestamped calls in time order; a timeout still pending when the trace ends
eventually fires. -/
def debounceTrace {α : Type} (delay : ℚ) (calls : List (ℚ × α)) : List α :=
  match calls.foldl (debounceStep delay) ([], none) with
  | (fired, some pending) => fired ++ [pending.2]
  | (fired, none) => fired

namespace YTPlayerState

/-- The YTPlayerState enum values (VideoPlayerScreen.tsx lines 24-31). -/
def UNSTARTED : ℤ := -1

def ENDED : ℤ := 0

def PLAYING : ℤ := 1

def PAUSED : ℤ := 2

def BUFFERING : ℤ := 3

def CUED : ℤ := 5

end YTPlayerState

/-- A parsed WebViewMessage (VideoPlayerScreen.tsx lines 34-40): the tagged
union delivered over the bridge; `playerState` and `currentTime` are optional
fields and may be absent. -/
inductive WebViewMessage : Type
  | playerReady : WebViewMessage
  | playerStateChange (playerState : Option ℤ) (currentTime : Option ℚ) : WebViewMessage
  | timeUpdate (currentTime : Option ℚ) : WebViewMessage
  | sessionEndRequest (currentTime : Option ℚ) : WebViewMessage
  | playerError (errorCode : ℤ) : WebViewMessage
deriving Repr, DecidableEq

/-- Everything one synchronous handler invocation does: the component state
afterwards, the `debouncedSaveProgress(position, isCompleted)` calls it made
(an omitted `isCompleted` argument recorded as `false`, its JS truthiness),
the seek commands injected into the WebView, the titles of alerts raised,
whether the catch block logged a parse failure, whether the session was
ended (the Session Ended alert whose OK navigates back), and whether a
script was injected asking the player for its current time (the
save-and-exit round trip). -/
structure HandlerResult where
  state : ControllerState
  saveCalls : List (ℚ × Bool)
  seeks : List ℚ
  alerts : List String
  parseErrorLogged : Bool
  sessionEnded : Bool
  timeRequested : Bool
deriving Repr, DecidableEq

/-- A handler result with no effects and an unchanged state. -/
def noEffects (s : ControllerState) : HandlerResult :=
  { state := s, saveCalls := [], seeks := [], alerts := []
    parseErrorLogged := false, sessionEnded := false, timeRequested := false }

/-- JS `videoData?.duration || 1` (line 225): 1 when the record is missing or
its duration is 0 (falsy). -/
def durationOrOne (videoData : Option VideoData) : ℚ :=
  match videoData with
  | some vd => if vd.duration = 0 then 1 else vd.duration
  | none => 1

/-- handleFinalSessionEnd (VideoPlayerScreen.tsx lines 224-232): one
debounced-save call at the final position, with
`isCompleted = (position / (videoData?.duration || 1)) * 100 >= 98`,
then the Session Ended alert whose OK press navigates back. -/
def handleFinalSessionEnd (s : ControllerState) (endedAtPosition : ℚ) : HandlerResult :=
  { state := s
    saveCalls :=
      [(endedAtPosition, decide (endedAtPosition / durationOrOne s.videoData * 100 ≥ 98))]
    seeks := []
    alerts := ["Session Ended"]
    parseErrorLogged := false
    sessionEnded := true
    timeRequested := false }

/-- handleWebViewMessage (VideoPlayerScreen.tsx lines 234-283). `parsed` is
the outcome of `JSON.parse` on the raw string: `none` models the parse
throwing, which the surrounding try/catch turns into a log-and-ignore
(lines 280-282). The switch mirrors the source: PLAYER_READY marks the
player ready and seeks to a positive last position; PLAYER_STATE_CHANGE
saves on Paused, saves with `isCompleted = true` on Ended, does nothing on
Playing or other states; TIME_UPDATE records the position and saves;
SESSION_END_REQUEST enters handleFinalSessionEnd (falling back to the
in-memory position when no currentTime is present); PLAYER_ERROR alerts. -/
def handleWebViewMessage (s : ControllerState) (parsed : Option WebViewMessage) :
    HandlerResult :=
  match parsed with
  | none => { noEffects s with parseErrorLogged := true }
  | some msg =>
      match msg with
      | .playerReady =>
          { noEffects { s with isPlayerReady := true } with
              seeks := if s.currentPlaybackTime > 0 then [s.currentPlaybackTime] else [] }
      | .playerStateChange ps ct =>
          if ps = some YTPlayerState.PLAYING then noEffects s
          else if ps = some YTPlayerState.PAUSED then
            { noEffects s with
                saveCalls := match ct with | some t => [(t, false)] | none => [] }
          else if ps = some YTPlayerState.ENDED then
            { noEffects s with
                saveCalls := match ct with | some t => [(t, true)] | none => [] }
          else noEffects s
      | .timeUpdate ct =>
          match ct with
          | some t =>
              { noEffects { s with currentPlaybackTime := t } with saveCalls := [(t, false)] }
          | none => noEffects s
      | .sessionEndRequest ct =>
          match ct with
          | some t => handleFinalSessionEnd s t
          | none => handleFinalSessionEnd s s.currentPlaybackTime
      | .playerError _ => { noEffects s with alerts := ["Player Error"] }

/-- handleSaveAndExit (VideoPlayerScreen.tsx lines 285-300): with the player
ready (and the WebView ref mounted) it injects a script asking the player for
its current time, which comes back asynchronously as a SESSION_END_REQUEST;
otherwise it terminates immediately through handleFinalSessionEnd at the
last known in-memory position. -/
def handleSaveAndExit (s : ControllerState) : HandlerResult :=
  if s.isPlayerReady then { noEffects s with timeRequested := true }
  else handleFinalSessionEnd s s.currentPlaybackTime

/-- handleExtendSession (VideoPlayerScreen.tsx lines 302-311). With a session
end time set (a nonzero timestamp, hence truthy) it adds 5 minutes to it via
the functional update `prev => (prev || Date.now()) + 5 * 60 * 1000`. With no
end time but loaded prefs it starts a timer of
`(defaultSessionDuration > 0 ? defaultSessionDuration : 0) + 5` minutes.
Returns the new state and the alert titles raised. -/
def handleExtendSession (s : ControllerState) (now : ℚ) : ControllerState × List String :=
  match s.sessionEndTime with
  | some prev => ({ s with sessionEndTime := some (prev + 5 * 60 * 1000) }, ["Session Extended"])
  | none =>
      match s.userPrefs with
      | some d =>
          let newDuration := (if d > 0 then d else 0) + 5
          ({ s with sessionEndTime := some (now + newDuration * 60 * 1000) },
            ["Session Started & Extended"])
      | none => (s, [])

/-- JS `fetchedVideoData.progress?.lastPosition || 0` (line 107): the initial
in-memory playback position comes from the persisted record (0 replaces a
missing or zero — falsy — value). -/
def initialPlaybackTime (vd : VideoData) : ℚ :=
  match vd.progress with
  | some p => p.lastPosition
  | none => 0

/-- JS `profile.preferences?.defaultSessionDuration || 30` (line 112): a
missing or zero stored preference falls back to 30 minutes. -/
def defaultSessionDurationOf (pref : Option ℚ) : ℚ :=
  match pref with
  | some d => if d = 0 then 30 else d
  | none => 30

/-- The controller state right after fetchInitialData succeeds
(VideoPlayerScreen.tsx lines 96-129, found-profile path) and before any
player event arrives: the video record is loaded, the screen focused, the
player not yet ready, the in-memory position seeded from the persisted
record, and the session timer started only for a positive default
duration. -/
def initController (vd : VideoData) (pref : Option ℚ) (now : ℚ) : ControllerState :=
  let defaultDuration := defaultSessionDurationOf pref
  { videoData := some vd
    isFocused := true
    isPlayerReady := false
    currentPlaybackTime := initialPlaybackTime vd
    sessionEndTime :=
      if defaultDuration > 0 then some (now + defaultDuration * 60 * 1000) else none
    userPrefs := some defaultDuration }

/-- Delivering one timestamped TIME_UPDATE event to handleWebViewMessage:
the state evolves and the debounced-save calls it makes are appended, tagged
with the arrival time at which they entered the debounce. -/
def timeUpdateStep (acc : ControllerState × List (ℚ × (ℚ × Bool))) (ev : ℚ × ℚ) :
    ControllerState × List (ℚ × (ℚ × Bool)) :=
  let r := handleWebViewMessage acc.1 (some (.timeUpdate (some ev.2)))
  (r.state, acc.2 ++ r.saveCalls.map (fun c => (ev.1, c)))

/-- Feeding a list of timestamped TIME_UPDATE events (arrival time in ms,
reported position in seconds) through handleWebViewMessage in order. -/
def runTimeUpdates (s : ControllerState) (events : List (ℚ × ℚ)) :
    ControllerState × List (ℚ × (ℚ × Bool)) :=
  events.foldl timeUpdateStep (s, [])

/-- The store writes a burst of TIME_UPDATE events produces: the save calls
made by the handler go through the 3000 ms debounce of `debouncedSaveProgress`
(line 82) and each surviving invocation runs the guarded save body against
the controller video record and focus (TIME_UPDATE events change neither). -/
def timeUpdateStoreWrites (s : ControllerState) (events : List (ℚ × ℚ)) :
    List (Option VideoProgress) :=
  (debounceTrace 3000 (runTimeUpdates s events).2).map
    (fun c => (saveProgressFlush s.videoData s.isFocused true c.1 c.2).write)

/-- Remaining seconds as computed by updateTimer inside the session-timer effect
(VideoPlayerScreen.tsx line 143):
`Math.max(0, Math.floor((sessionEndTime - now) / 1000))`, seconds derived
from the wall clock and the fixed end timestamp. -/
def updateTimerRemaining (endAt now : ℚ) : ℤ := max 0 ⌊(endAt - now) / 1000⌋

/-- What drives the session-timer effect (VideoPlayerScreen.tsx
lines 135-169) while `sessionEndTime` is set and unchanged and the screen is
focused: `tick` is the 1 Hz interval callback; `restart` is a re-execution
of the effect because another dependency changed (`currentPlaybackTime` is
in the dependency array, line 169) — the cleanup clears the old interval and
the effect body calls updateTimer immediately and starts a new interval. -/
inductive TimerEvent : Type
  | tick (now : ℚ) : TimerEvent
  | restart (now : ℚ) : TimerEvent
deriving Repr, DecidableEq

/-- Accumulated observable behaviour of the timer effect: whether an
interval is currently scheduled, the successive `remaining` values stored by
setSessionTimeRemaining, and how many times the expiry signal (the injected
SESSION_END_REQUEST script, lines 148-156) was emitted. -/
structure TimerAcc where
  intervalActive : Bool
  remainings : List ℤ
  expiries : ℕ
deriving Repr, DecidableEq

/-- One updateTimer invocation (lines 141-159): record the recomputed
remaining; when it has reached 0, emit the session-end request and call
clearInterval on whatever the ref holds (line 157). `liveInterval` says what
that is at this moment: during the initial call of an effect run (line 160)
the ref still holds the previous, already-cleared handle — the interval of
this run is only scheduled afterwards (line 161), so it is not stopped —
while during an interval tick the ref holds the live interval, which is then
stopped. -/
def timerUpdate (endAt now : ℚ) (liveInterval : Bool) (acc : TimerAcc) : TimerAcc :=
  let r := updateTimerRemaining endAt now
  if r ≤ 0 then
    { intervalActive := acc.intervalActive && !liveInterval
      remainings := acc.remainings ++ [r]
      expiries := acc.expiries + 1 }
  else
    { intervalActive := acc.intervalActive, remainings := acc.remainings ++ [r]
      expiries := acc.expiries }

/-- Processing one timer event. An effect (re-)execution first clears
whatever the ref holds (cleanup at line 165 and body at lines 136-138), runs
updateTimer immediately (line 160) while the ref still holds that stale
handle, and only then assigns `setInterval(updateTimer, 1000)` to the ref
(line 161) — so the new interval is live even when the initial call already
expired and emitted. An interval tick runs updateTimer only while the
interval is still scheduled, and a clearInterval inside it hits the live
interval. -/
def timerStep (endAt : ℚ) (acc : TimerAcc) (e : TimerEvent) : TimerAcc :=
  match e with
  | .restart now => { timerUpdate endAt now false acc with intervalActive := true }
  | .tick now => if acc.intervalActive then timerUpdate endAt now true acc else acc

/-- A whole run of the session-timer effect for one fixed `endAt`: the trace
starts with the first execution of the effect (a `restart`), so the initial state
has no interval scheduled. -/
def timerRun (endAt : ℚ) (events : List TimerEvent) : TimerAcc :=
  events.foldl (timerStep endAt) { intervalActive := false, remainings := [], expiries := 0 }

/-- A 600-second video with no progress watched yet; the record of the
duration-600 scenarios. -/
def vid600 : VideoData :=
  { duration := 600
    progress := some { lastPosition := 0, completionPercentage := 0, completed := false } }

/-- A 3-second video, used where a duration not dividing 100 exposes the
one-decimal rounding of the stored percentage. -/
def vid3 : VideoData := { duration := 3, progress := none }

/-- A 1-second video, used to expose that the stored percentage is computed
from the un-floored position. -/
def vid1 : VideoData := { duration := 1, progress := none }

/-- A 600-second video whose persisted record already holds
lastPosition = 50. -/
def vid50 : VideoData :=
  { duration := 600
    progress := some { lastPosition := 50, completionPercentage := 83 / 10, completed := false } }

/-- A focused, player-ready state on `vid600` at position 595, as in the
play-to-595 scenario. -/
def state600 : ControllerState :=
  { videoData := some vid600, isFocused := true, isPlayerReady := true
    currentPlaybackTime := 595, sessionEndTime := none, userPrefs := some 30 }

/-- A focused, player-ready state on `vid3`. -/
def state3 : ControllerState :=
  { videoData := some vid3, isFocused := true, isPlayerReady := true
    currentPlaybackTime := 0, sessionEndTime := none, userPrefs := none }

/-- A state with no session end time but loaded preferences of 30 minutes. -/
def stateIdle30 : ControllerState :=
  { videoData := some vid600, isFocused := true, isPlayerReady := true
    currentPlaybackTime := 0, sessionEndTime := none, userPrefs := some 30 }

/-- A focused state on `vid600` whose session timer is running with
endAt = 1000. -/
def stateRunning : ControllerState :=
  { videoData := some vid600, isFocused := true, isPlayerReady := true
    currentPlaybackTime := 0, sessionEndTime := some 1000, userPrefs := some 30 }

/-- Folding chained debounce calls over a pending timeout that none of them
lets fire: nothing fires and the pending timeout ends up at the last call. -/
theorem debounce_foldl_chain {α : Type} (delay : ℚ) :
    ∀ (calls : List (ℚ × α)) (t : ℚ) (a : α),
      (∀ c₀ ∈ calls.head?, c₀.1 < t) →
      calls.Chain' (fun p q => q.1 < p.1 + delay) →
      calls.foldl (debounceStep delay) ([], some (t, a)) =
        ([], some ((calls.getLast?.map (fun c => (c.1 + delay, c.2))).getD (t, a))) := by
  intro calls
  induction calls with
  | nil => intro t a _ _; simp
  | cons c cs ih =>
      intro t a hhead hchain
      have hct : c.1 < t := hhead c (by simp)
      have step1 : debounceStep delay ([], some (t, a)) c = ([], some (c.1 + delay, c.2)) := by
        simp [debounceStep, not_le.mpr hct]
      obtain ⟨hhead', hchain'⟩ := List.chain'_cons'.mp hchain
      rw [List.foldl_cons, step1, ih (c.1 + delay) c.2 hhead' hchain']
      cases hcs : cs.getLast? with
      | none =>
          have : cs = [] := List.getLast?_eq_none_iff.mp hcs
          subst this
          simp
      | some d =>
          cases cs with
          | nil => simp at hcs
          | cons e es => simp [List.getLast?_cons_cons, hcs]

/-- When every call of a nonempty trace arrives before the timeout of the
previous call fires, the debounced function fires exactly once, with the
argument of the last call. -/
theorem debounceTrace_single_window {α : Type} (delay : ℚ) (calls : List (ℚ × α))
    (c : ℚ × α) (hlast : calls.getLast? = some c)
    (hchain : calls.Chain' (fun p q => q.1 < p.1 + delay)) :
    debounceTrace delay calls = [c.2] := by
  cases calls with
  | nil => simp at hlast
  | cons c₀ cs =>
      obtain ⟨hhead, hchain'⟩ := List.chain'_cons'.mp hchain
      have step1 : debounceStep delay ([], none) c₀ = ([], some (c₀.1 + delay, c₀.2)) := rfl
      unfold debounceTrace
      rw [List.foldl_cons, step1, debounce_foldl_chain delay cs (c₀.1 + delay) c₀.2 hhead hchain']
      cases hcs : cs.getLast? with
      | none =>
          have : cs = [] := List.getLast?_eq_none_iff.mp hcs
          subst this
          simp at hlast
          simp [hlast]
      | some d =>
          have : (c₀ :: cs).getLast? = some d := by
            cases cs with
            | nil => simp at hcs
            | cons e es => simpa [List.getLast?_cons_cons] using hcs
          rw [hlast] at this
          simp [hcs, ← Option.some_inj.mp this]

/-- The TIME_UPDATE handler contributes exactly one debounced-save call per
event, carrying the position of the event and an omitted (falsy)
isCompleted. -/
theorem timeUpdates_foldl_saveCalls (events : List (ℚ × ℚ)) :
    ∀ (s : ControllerState) (acc : List (ℚ × (ℚ × Bool))),
      (events.foldl timeUpdateStep (s, acc)).2 =
        acc ++ events.map (fun e => (e.1, (e.2, false))) := by
  induction events with
  | nil => intro s acc; simp
  | cons e es ih =>
      intro s acc
      have hstep : timeUpdateStep (s, acc) e =
          ({ s with currentPlaybackTime := e.2 }, acc ++ [(e.1, (e.2, false))]) := rfl
      rw [List.foldl_cons, hstep, ih]
      simp

/-- When the guard of the save body passes, the issued write is exactly the
recomputed progress record, whatever the store outcome. -/
theorem saveProgressFlush_write (vd : VideoData) (isFocused storeOk : Bool)
    (position : ℚ) (isCompleted : Bool)
    (hdur : vd.duration ≠ 0) (hfoc : isFocused = true) :
    (saveProgressFlush (some vd) isFocused storeOk position isCompleted).write =
      some (computeNewProgress vd.duration position isCompleted) := by
  subst hfoc
  cases storeOk <;> simp [saveProgressFlush, hdur]

/-- C9 (confirmed): a Bridge message whose payload is not parseable JSON is
logged and ignored: the controller state is unchanged, no debounced save and
hence no store write is issued, no seek, no alert, no session end, and the
handler returns normally (the try/catch makes it total), only recording the
parse-failure log. -/
theorem malformed_message_logged_and_ignored (s : ControllerState) :
    handleWebViewMessage s none =
      { state := s, saveCalls := [], seeks := [], alerts := []
        parseErrorLogged := true, sessionEnded := false, timeRequested := false } := rfl

/-- C2 (confirmed): N ≥ 1 TIME_UPDATE events all within one 3-second
debounce window of an active session (video record loaded with nonzero
duration, screen focused) produce exactly one store write, and that write is
the record recomputed at the position of the last event; the intermediate
positions are never written. "Within one window" is the chain condition:
each event arrives strictly before the 3000 ms timeout of the previous
event fires. -/
theorem time_update_debounce_single_write
    (s : ControllerState) (vd : VideoData) (events : List (ℚ × ℚ)) (tN posN : ℚ)
    (hvd : s.videoData = some vd) (hdur : vd.duration ≠ 0) (hfoc : s.isFocused = true)
    (hlast : events.getLast? = some (tN, posN))
    (hchain : events.Chain' (fun p q => q.1 < p.1 + 3000)) :
    timeUpdateStoreWrites s events = [some (computeNewProgress vd.duration posN false)] := by
  unfold timeUpdateStoreWrites runTimeUpdates
  rw [timeUpdates_foldl_saveCalls]
  have hlast' : (events.map (fun e => (e.1, (e.2, false)))).getLast? = some (tN, (posN, false)) := by
    rw [List.getLast?_map, hlast]
    rfl
  have hchain' :
      (events.map (fun e => (e.1, (e.2, false)))).Chain' (fun p q => q.1 < p.1 + 3000) := by
    rw [List.chain'_map]
    exact hchain
  rw [List.nil_append, debounceTrace_single_window 3000 _ (tN, (posN, false)) hlast' hchain']
  rw [List.map_cons, List.map_nil, hvd]
  rw [saveProgressFlush_write vd s.isFocused true posN false hdur hfoc]

/-- C2 witness: three rapid TIME_UPDATE events at positions 10, 20, 30 within
one window yield the single write recomputed at position 30. -/
theorem time_update_debounce_single_write_witness :
    state600.videoData = some vid600 ∧
    timeUpdateStoreWrites state600 [(0, 10), (1000, 20), (2000, 30)] =
      [some (computeNewProgress vid600.duration 30 false)] :=
  ⟨rfl,
    time_update_debounce_single_write state600 vid600 [(0, 10), (1000, 20), (2000, 30)] 2000 30
      rfl (by norm_num [vid600]) rfl rfl
      (by norm_num [List.chain'_cons, List.chain'_singleton])⟩

/-- C6 (confirmed): extending a Running timer adds exactly 5 * 60 * 1000 ms
= 300 seconds to endAt (a strict increase), changes nothing else in the
controller state, and raises only the Session Extended notice. -/
theorem extend_running_adds_300s (s : ControllerState) (now endAt : ℚ)
    (h : s.sessionEndTime = some endAt) :
    handleExtendSession s now =
      ({ s with sessionEndTime := some (endAt + 300000) }, ["Session Extended"]) ∧
    endAt < endAt + 300000 := by
  constructor
  · unfold handleExtendSession
    rw [h]
    norm_num
  · norm_num

/-- C6 witness: extending the running sample state moves endAt from 1000 to
301000 and touches nothing else. -/
theorem extend_running_adds_300s_witness :
    handleExtendSession stateRunning 0 =
      ({ stateRunning with sessionEndTime := some (1000 + 300000) }, ["Session Extended"]) ∧
    (1000 : ℚ) < 1000 + 300000 :=
  extend_running_adds_300s stateRunning 0 1000 rfl

/-- C8 (confirmed): whenever the guard condition holds when the debounce
window closes — the video record is not loaded, or its duration is 0, or the
screen is not focused — the save body is a silent no-op for every position,
every isCompleted flag (so also for Ended- and termination-triggered saves)
and every store outcome: no write is issued, no error is logged, and the
local record is unchanged. -/
theorem save_guard_silent_noop
    (videoData : Option VideoData) (isFocused storeOk : Bool)
    (position : ℚ) (isCompleted : Bool)
    (h : videoData = none ∨ (∃ vd, videoData = some vd ∧ vd.duration = 0) ∨
      isFocused = false) :
    saveProgressFlush videoData isFocused storeOk position isCompleted =
      { videoDataAfter := videoData, write := none, errorLogged := false } := by
  rcases h with h | ⟨vd, hvd, hdur⟩ | h
  · subst h; rfl
  · subst hvd
    simp [saveProgressFlush, hdur]
  · subst h
    cases videoData with
    | none => rfl
    | some vd => simp [saveProgressFlush]

/-- C8 witness: with no loaded record, an Ended-triggered save at position
595 writes nothing and surfaces nothing. -/
theorem save_guard_silent_noop_witness :
    saveProgressFlush none true true 595 true =
      { videoDataAfter := none, write := none, errorLogged := false } :=
  save_guard_silent_noop none true true 595 true (Or.inl rfl)

/-- C7 (confirmed): with a 600-second video, last position 0, playing to
595 s and the player reporting Ended, the controller issues the save call
(595, completed forced) and the persisted record is exactly
lastPosition 595, completionPercentage 99.2, completed true. -/
theorem ended_595_of_600_scenario :
    (handleWebViewMessage state600
        (some (.playerStateChange (some YTPlayerState.ENDED) (some 595)))).saveCalls
      = [(595, true)] ∧
    (saveProgressFlush (some vid600) true true 595 true).write =
      some { lastPosition := 595, completionPercentage := 99.2, completed := true } := by
  constructor
  · norm_num [handleWebViewMessage, noEffects, YTPlayerState.ENDED, YTPlayerState.PLAYING,
      YTPlayerState.PAUSED]
  · norm_num [saveProgressFlush, computeNewProgress, toFixed1, min_def, vid600]

/-- C1 counterexample: a StateChanged(Ended, 1) event on a 3-second video
(position 1 lies in [0, 3] and the duration is positive) persists the record
lastPosition 1, completionPercentage 33.3, completed true — which satisfies
neither completionPercentage = min(100, 100*1/3) (the stored value is
rounded to one decimal) nor completed == (completionPercentage >= 98) (Ended
forces completed although 33.3 < 98). -/
theorem ended_write_counterexample :
    (handleWebViewMessage state3
        (some (.playerStateChange (some YTPlayerState.ENDED) (some 1)))).saveCalls
      = [(1, true)] ∧
    (saveProgressFlush (some vid3) true true 1 true).write =
      some { lastPosition := 1, completionPercentage := 333 / 10, completed := true } ∧
    (333 : ℚ) / 10 ≠ min 100 (100 * 1 / 3) ∧
    (true : Bool) ≠ decide ((333 : ℚ) / 10 ≥ 98) := by
  refine ⟨?_, ?_, by norm_num [min_def], by norm_num⟩
  · norm_num [handleWebViewMessage, noEffects, YTPlayerState.ENDED, YTPlayerState.PLAYING,
      YTPlayerState.PAUSED]
  · norm_num [saveProgressFlush, computeNewProgress, toFixed1, min_def, vid3]

/-- C1 (corrected): for every persisted write triggered by
StateChanged(Ended, position) with position in [0, duration] and
duration > 0, the Ended handler issues the save call (position, true), the
stored record is the recomputed one, its completionPercentage is
min(100, 100*position/duration) rounded to one decimal place (the toFixed(1)
storage format), and completed is always true: Ended forces completion
regardless of the 98% threshold. -/
theorem ended_write_rounded_and_forced_complete
    (s : ControllerState) (vd : VideoData) (position : ℚ) (storeOk : Bool)
    (hvd : s.videoData = some vd) (hfoc : s.isFocused = true)
    (hdur : 0 < vd.duration) (_hpos0 : 0 ≤ position) (_hposd : position ≤ vd.duration) :
    (handleWebViewMessage s
        (some (.playerStateChange (some YTPlayerState.ENDED) (some position)))).saveCalls
      = [(position, true)] ∧
    (saveProgressFlush s.videoData s.isFocused storeOk position true).write
      = some (computeNewProgress vd.duration position true) ∧
    (computeNewProgress vd.duration position true).completionPercentage
      = toFixed1 (min 100 (100 * position / vd.duration)) ∧
    (computeNewProgress vd.duration position true).completed = true := by
  refine ⟨?_, ?_, ?_, by simp [computeNewProgress]⟩
  · norm_num [handleWebViewMessage, noEffects, YTPlayerState.ENDED, YTPlayerState.PLAYING,
      YTPlayerState.PAUSED]
  · rw [hvd]
    exact saveProgressFlush_write vd s.isFocused storeOk position true (ne_of_gt hdur) hfoc
  · have harg : position / vd.duration * 100 = 100 * position / vd.duration := by ring
    simp [computeNewProgress, harg]

/-- C1 witness: the amended statement at the 600-second video, Ended at
position 300. -/
theorem ended_write_rounded_and_forced_complete_witness :
    (0 : ℚ) < vid600.duration ∧
    ((handleWebViewMessage state600
        (some (.playerStateChange (some YTPlayerState.ENDED) (some 300)))).saveCalls
      = [(300, true)] ∧
    (saveProgressFlush state600.videoData state600.isFocused true 300 true).write
      = some (computeNewProgress vid600.duration 300 true) ∧
    (computeNewProgress vid600.duration 300 true).completionPercentage
      = toFixed1 (min 100 (100 * 300 / vid600.duration)) ∧
    (computeNewProgress vid600.duration 300 true).completed = true) :=
  ⟨by norm_num [vid600],
    ended_write_rounded_and_forced_complete state600 vid600 300 true rfl rfl
      (by norm_num [vid600]) (by norm_num) (by norm_num [vid600])⟩

/-- C4 counterexample: requestTermination before the Bridge is Ready, on a
fresh controller whose persisted record holds lastPosition 50 and before any
position was ever received from the player, terminates using position 50 —
not 0 as the parenthetical of the claim asserts — and the issued write stores
lastPosition 50. -/
theorem save_and_exit_counterexample :
    (initController vid50 (some 30) 0).isPlayerReady = false ∧
    (handleSaveAndExit (initController vid50 (some 30) 0)).sessionEnded = true ∧
    (handleSaveAndExit (initController vid50 (some 30) 0)).saveCalls = [(50, false)] ∧
    (saveProgressFlush (initController vid50 (some 30) 0).videoData
        (initController vid50 (some 30) 0).isFocused true 50 false).write =
      some { lastPosition := 50, completionPercentage := 83 / 10, completed := false } ∧
    (50 : ℚ) ≠ 0 := by
  refine ⟨rfl, ?_, ?_, ?_, by norm_num⟩
  · rfl
  · norm_num [handleSaveAndExit, handleFinalSessionEnd, initController, initialPlaybackTime,
      defaultSessionDurationOf, durationOrOne, vid50, noEffects]
  · norm_num [initController, initialPlaybackTime, defaultSessionDurationOf, vid50,
      saveProgressFlush, computeNewProgress, toFixed1, min_def]

/-- C4 (corrected): requestTermination while the Bridge has not reported
Ready terminates immediately: exactly one save call is issued, at the last
known in-memory position — which on a fresh controller is the lastPosition
of the persisted record (0 only when the record held none), not necessarily
0 — that call flushes to exactly one store write with that position, and the
caller is signaled by the Session Ended notice. -/
theorem save_and_exit_before_ready (vd : VideoData) (pref : Option ℚ) (now : ℚ) (storeOk : Bool)
    (hdur : vd.duration ≠ 0) :
    (handleSaveAndExit (initController vd pref now)).sessionEnded = true ∧
    (handleSaveAndExit (initController vd pref now)).alerts = ["Session Ended"] ∧
    (handleSaveAndExit (initController vd pref now)).saveCalls =
      [(initialPlaybackTime vd,
        decide (initialPlaybackTime vd / vd.duration * 100 ≥ 98))] ∧
    (saveProgressFlush (initController vd pref now).videoData
        (initController vd pref now).isFocused storeOk (initialPlaybackTime vd)
        (decide (initialPlaybackTime vd / vd.duration * 100 ≥ 98))).write =
      some (computeNewProgress vd.duration (initialPlaybackTime vd)
        (decide (initialPlaybackTime vd / vd.duration * 100 ≥ 98))) := by
  refine ⟨rfl, rfl, ?_, ?_⟩
  · show (handleFinalSessionEnd (initController vd pref now) (initialPlaybackTime vd)).saveCalls
      = _
    simp [handleFinalSessionEnd, initController, durationOrOne, hdur]
  · exact saveProgressFlush_write vd true storeOk (initialPlaybackTime vd) _ hdur rfl

/-- C4 witness: the amended statement on the fresh controller over the
record persisted at position 50. -/
theorem save_and_exit_before_ready_witness :
    vid50.duration ≠ 0 ∧
    ((handleSaveAndExit (initController vid50 (some 30) 0)).sessionEnded = true ∧
    (handleSaveAndExit (initController vid50 (some 30) 0)).alerts = ["Session Ended"] ∧
    (handleSaveAndExit (initController vid50 (some 30) 0)).saveCalls =
      [(initialPlaybackTime vid50,
        decide (initialPlaybackTime vid50 / vid50.duration * 100 ≥ 98))] ∧
    (saveProgressFlush (initController vid50 (some 30) 0).videoData
        (initController vid50 (some 30) 0).isFocused true (initialPlaybackTime vid50)
        (decide (initialPlaybackTime vid50 / vid50.duration * 100 ≥ 98))).write =
      some (computeNewProgress vid50.duration (initialPlaybackTime vid50)
        (decide (initialPlaybackTime vid50 / vid50.duration * 100 ≥ 98)))) :=
  ⟨by norm_num [vid50],
    save_and_exit_before_ready vid50 (some 30) 0 true (by norm_num [vid50])⟩

/-- C5 counterexample: extendSession in the Idle state whose loaded default
session duration is 30 minutes starts a timer of 35 minutes
(endAt = now + 2100000 ms), not the claimed now + 5 minutes
(= now + 300000 ms). -/
theorem extend_idle_counterexample :
    stateIdle30.sessionEndTime = none ∧
    stateIdle30.userPrefs = some 30 ∧
    (handleExtendSession stateIdle30 0).1.sessionEndTime = some 2100000 ∧
    (2100000 : ℚ) ≠ 0 + 5 * 60 * 1000 := by
  refine ⟨rfl, rfl, ?_, by norm_num⟩
  norm_num [handleExtendSession, stateIdle30]

/-- C5 (corrected): extendSession while the timer is Idle and preferences
are loaded starts a timer whose endAt is
now + ((defaultSessionDuration if positive, else 0) + 5) minutes — the
default duration is compounded with the 5-minute delta; endAt equals
now + 5 minutes only when the stored default is not positive. -/
theorem extend_idle_starts_default_plus_delta (s : ControllerState) (now d : ℚ)
    (hidle : s.sessionEndTime = none) (hprefs : s.userPrefs = some d) :
    (handleExtendSession s now).1.sessionEndTime =
      some (now + ((if d > 0 then d else 0) + 5) * 60 * 1000) ∧
    (handleExtendSession s now).2 = ["Session Started & Extended"] := by
  unfold handleExtendSession
  rw [hidle, hprefs]
  exact ⟨rfl, rfl⟩

/-- C5 witness: the amended statement at the Idle state with a 30-minute
default. -/
theorem extend_idle_starts_default_plus_delta_witness :
    (handleExtendSession stateIdle30 0).1.sessionEndTime =
      some (0 + ((if (30 : ℚ) > 0 then (30 : ℚ) else 0) + 5) * 60 * 1000) ∧
    (handleExtendSession stateIdle30 0).2 = ["Session Started & Extended"] :=
  extend_idle_starts_default_plus_delta stateIdle30 0 30 rfl rfl

/-- C3 (code bug): every recorded remaining is the wall-clock recomputation
max(0, floor((endAt - now)/1000)), and a Running period that starts
unexpired and expires on an interval tick emits the session-end request
exactly once, after which the cleared interval emits nothing (first
conjunct, endAt = 1500). But the signal is not emitted exactly once per
Running period, in two ways. An effect run whose initial updateTimer call is
already expired emits twice: the clearInterval inside the initial call only
hits the stale previous handle, the interval scheduled afterwards at
line 161 stays live, and its first tick recomputes remaining = 0 and emits
again (second conjunct, endAt = 0). And a re-execution of the effect with
the same endAt — which the source triggers whenever currentPlaybackTime
changes, since it sits in the dependency array at line 169 — re-emits after
a completed expiry (third conjunct, endAt = 1500 with a restart at
t = 2000). -/
theorem timer_expiry_reemitted_on_effect_rerun :
    timerRun 1500 [.restart 0, .tick 1000, .tick 2000, .tick 3000] =
      { intervalActive := false, remainings := [1, 0], expiries := 1 } ∧
    timerRun 0 [.restart 0, .tick 1000, .tick 2000] =
      { intervalActive := false, remainings := [0, 0], expiries := 2 } ∧
    timerRun 1500 [.restart 0, .tick 1000, .restart 2000] =
      { intervalActive := true, remainings := [1, 0, 0], expiries := 2 } := by
  refine ⟨?_, ?_, ?_⟩ <;>
    norm_num [timerRun, timerStep, timerUpdate, updateTimerRemaining]

/-- C10 (confirmed): every issued write stores lastPosition = floor(position)
(an integer, not the float position) while completionPercentage is computed
from the un-floored position and only then rounded to one decimal; and at
duration 1, position 1/2, the stored record (lastPosition 0,
completionPercentage 50) shows the stored percentage differing from
min(100, 100*lastPosition/duration) recomputed from the stored
lastPosition. -/
theorem stored_position_floored_percentage_unfloored
    (videoData : Option VideoData) (vd : VideoData) (isFocused storeOk : Bool)
    (position : ℚ) (isCompleted : Bool) (w : VideoProgress)
    (hvd : videoData = some vd)
    (hw : (saveProgressFlush videoData isFocused storeOk position isCompleted).write = some w) :
    (w.lastPosition = (⌊position⌋ : ℚ) ∧
      w.completionPercentage = toFixed1 (min 100 (position / vd.duration * 100))) ∧
    ((saveProgressFlush (some vid1) true true (1 / 2) false).write =
        some { lastPosition := 0, completionPercentage := 50, completed := false } ∧
      (50 : ℚ) ≠ min 100 (100 * 0 / vid1.duration)) := by
  constructor
  · subst hvd
    by_cases hg : vd.duration = 0 ∨ isFocused = false
    · simp [saveProgressFlush, hg] at hw
    · push_neg at hg
      have := saveProgressFlush_write vd isFocused storeOk position isCompleted hg.1
        (by simpa using hg.2)
      rw [this] at hw
      rw [← Option.some_inj.mp hw]
      exact ⟨rfl, rfl⟩
  · constructor
    · norm_num [saveProgressFlush, computeNewProgress, toFixed1, min_def, vid1]
    · norm_num [min_def, vid1]

/-- C10 witness: the structural part applied at the duration-1 record and
position 1/2. -/
theorem stored_position_floored_percentage_unfloored_witness :
    ((computeNewProgress vid1.duration (1 / 2) false).lastPosition = (⌊(1 / 2 : ℚ)⌋ : ℚ) ∧
      (computeNewProgress vid1.duration (1 / 2) false).completionPercentage =
        toFixed1 (min 100 ((1 / 2) / vid1.duration * 100))) ∧
    ((saveProgressFlush (some vid1) true true (1 / 2) false).write =
        some { lastPosition := 0, completionPercentage := 50, completed := false } ∧
      (50 : ℚ) ≠ min 100 (100 * 0 / vid1.duration)) :=
  stored_position_floored_percentage_unfloored (some vid1) vid1 true true (1 / 2) false
    (computeNewProgress vid1.duration (1 / 2) false) rfl
    (by simp [saveProgressFlush, vid1, one_ne_zero])

end MvpApp
